import Mathlib

/-!
Shallow embedding of the Windows accessor of the `wallpaper` Go library
(`windows.go`), together with theorems checking the repository's
specification against it.

Modelling conventions:
- Go strings are lists of runes (`GoString := List Nat`); Go errors are
  their message text (`GoErr := String`).
- Every OS interaction (registry call, `SystemParametersInfoW`, process
  spawn, admin probe) is an `Event`; each function returns its Go result
  together with the list of events it performed, in order.
- The outcome of each OS call is supplied by an `Env` oracle, one field
  per call site, so theorems quantify over all OS behaviours.
- `os.Exit`, `log.Fatalf` and `panic` do not return; they are modelled by
  the terminating outcomes `Outcome.exited`, `Outcome.fatal` and
  `Outcome.panicked`, which propagate through the callers.
-/

set_option maxHeartbeats 1000000

namespace Wallpaper

/-- Go errors, modelled by their message text. -/
abbrev GoErr := String

/-- Go strings, modelled as lists of runes (Unicode code points). -/
abbrev GoString := List Nat

/-- Modelled from the spec: `DisplayMode` is "an enumerated value from the
closed set {Center, Crop, Fit, Span, Stretch, Tile}". The defining Go file
is not part of the sources here; in Go, `Mode` is an integer type, so values
outside the closed set are representable. The particular numbering below is
a representation choice; no theorem depends on it, only on the distinctness
of the six constants. -/
abbrev Mode := Int

/-- Modelled from the spec: the `Center` display mode. -/
def Center : Mode := 0

/-- Modelled from the spec: the `Crop` display mode. -/
def Crop : Mode := 1

/-- Modelled from the spec: the `Fit` display mode. -/
def Fit : Mode := 2

/-- Modelled from the spec: the `Span` display mode. -/
def Span : Mode := 3

/-- Modelled from the spec: the `Stretch` display mode. -/
def Stretch : Mode := 4

/-- Modelled from the spec: the `Tile` display mode. -/
def Tile : Mode := 5

/-- Membership of a mode in the closed six-element enumeration. -/
def modeIsValid (m : Mode) : Bool :=
  decide (m = Center ∨ m = Crop ∨ m = Fit ∨ m = Span ∨ m = Stretch ∨ m = Tile)

/-- SPI_GETDESKWALLPAPER, from the constant block of `windows.go`. -/
def spiGetDeskWallpaper : Nat := 0x0073

/-- SPI_SETDESKWALLPAPER, from the constant block of `windows.go`. -/
def spiSetDeskWallpaper : Nat := 0x0014

/-- The `uiParam` constant of `windows.go`. -/
def uiParam : Nat := 0x0000

/-- SPIF_UPDATEINIFILE flag. -/
def spifUpdateINIFile : Nat := 0x01

/-- SPIF_SENDCHANGE flag. -/
def spifSendChange : Nat := 0x02

/-- The registry keys touched by `windows.go`. -/
inductive RegKey where
  /-- HKLM `SOFTWARE\Policies\Microsoft\Windows\Personalization` -/
  | personalization
  /-- HKLM `SOFTWARE\Microsoft\Windows\CurrentVersion\PersonalizationCSP` -/
  | personalizationCSP
  /-- HKCU `Control Panel\Desktop` -/
  | controlPanelDesktop
deriving DecidableEq

/-- The registry value names touched by `windows.go`. -/
inductive RegValueName where
  | lockScreenImage
  | lockScreenImageStatus
  | lockScreenImagePath
  | lockScreenImageUrl
  | tileWallpaper
  | wallpaperStyle
deriving DecidableEq

/-- One OS interaction performed by the code, recorded in order. -/
inductive Event where
  /-- `SystemParametersInfoW(SPI_GETDESKWALLPAPER, bufferLen, &buf, 0)` -/
  | spiGet (bufferLen : Nat)
  /-- `SystemParametersInfoW(SPI_SETDESKWALLPAPER, uiParam, path, flags)` -/
  | spiSet (filename : GoString) (flags : Nat)
  /-- the `net session` admin probe of `isAdmin`, with its result -/
  | adminCheck (result : Bool)
  /-- `powershell Start-Process exe -Verb RunAs` from `runAsAdmin` -/
  | spawnElevated
  /-- `registry.OpenKey` -/
  | regOpen (key : RegKey)
  /-- `GetStringValue` or `GetIntegerValue` -/
  | regRead (key : RegKey) (name : RegValueName)
  /-- `registry.CreateKey` -/
  | regCreate (key : RegKey)
  /-- `SetStringValue` -/
  | regSetString (key : RegKey) (name : RegValueName) (value : GoString)
  /-- `SetDWordValue` -/
  | regSetDWord (key : RegKey) (name : RegValueName) (value : Nat)
deriving DecidableEq

/-- The oracle describing how the OS answers each call site. One field per
call site of `windows.go`; `Except.error e` means that OS call fails with
error `e`. -/
structure Env where
  /-- does the `net session` probe of `isAdmin` succeed -/
  isAdminResult : Bool
  /-- result of `os.Executable()` in `runAsAdmin` -/
  executablePath : Except GoErr GoString
  /-- result of running `powershell Start-Process ... -Verb RunAs` -/
  runAsResult : Except GoErr Unit
  /-- the uint16 code units the OS writes into the buffer of `Get` -/
  spiGetFill : List Nat
  /-- error return of the SPI get call; ignored by `Get` -/
  spiGetErr : Option GoErr
  /-- error return of the SPI set call; ignored by `SetFromFile` -/
  spiSetErr : Option GoErr
  /-- `registry.OpenKey` on the Personalization key in `checkRegistryValues` -/
  openPersonalization : Except GoErr Unit
  /-- `GetStringValue("LockScreenImage")` -/
  readLockScreenImage : Except GoErr GoString
  /-- `registry.OpenKey` on the PersonalizationCSP key -/
  openCSP : Except GoErr Unit
  /-- `GetIntegerValue("LockScreenImageStatus")` -/
  readLockScreenImageStatus : Except GoErr Nat
  /-- `GetStringValue("LockScreenImagePath")` -/
  readLockScreenImagePath : Except GoErr GoString
  /-- `GetStringValue("LockScreenImageUrl")` -/
  readLockScreenImageUrl : Except GoErr GoString
  /-- `registry.CreateKey` on the Personalization key in `setLockscreen` -/
  createPersonalization : Except GoErr Unit
  /-- `SetStringValue("LockScreenImage", filename)` -/
  setLockScreenImage : Except GoErr Unit
  /-- `registry.CreateKey` on the PersonalizationCSP key -/
  createCSP : Except GoErr Unit
  /-- `SetDWordValue("LockScreenImageStatus", 1)` -/
  setLockScreenImageStatus : Except GoErr Unit
  /-- `SetStringValue("LockScreenImagePath", filename)` -/
  setLockScreenImagePath : Except GoErr Unit
  /-- `SetStringValue("LockScreenImageUrl", filename)` -/
  setLockScreenImageUrl : Except GoErr Unit
  /-- `registry.CreateKey` on HKCU `Control Panel\Desktop` in `SetMode` -/
  createDesktopKey : Except GoErr Unit
  /-- `SetStringValue("TileWallpaper", tile)` -/
  setTileWallpaper : Except GoErr Unit
  /-- `SetStringValue("WallpaperStyle", style)` -/
  setWallpaperStyle : Except GoErr Unit

/-- How a Go function run ends: a normal return of `a`, a returned Go
error, `log.Fatalf` (message printed, process exits with code 1),
`os.Exit(code)`, or a `panic`. The last three never return to the caller. -/
inductive Outcome (α : Type) where
  | ok (a : α)
  | err (e : GoErr)
  | fatal (msg : String)
  | exited (code : Nat)
  | panicked (msg : String)
deriving DecidableEq

/-- Message of `log.Fatalf` when `os.Executable` fails in `runAsAdmin`. -/
def failedExePathMsg : String := "Failed to get executable path"

/-- Message of `log.Fatalf` when the elevated relaunch fails. -/
def failedRunAsMsg : String := "Failed to run as administrator"

/-- Message of the `panic` in the `default` branch of `SetMode`. -/
def invalidModeMsg : String := "invalid wallpaper mode"

/-- The error of `syscall.UTF16PtrFromString` on a string with a NUL byte. -/
def einval : GoErr := "invalid argument"

/-- The Go string `"0"`. -/
def strZero : GoString := [48]

/-- The Go string `"1"`. -/
def strOne : GoString := [49]

/-- The Go string `"2"`. -/
def strTwo : GoString := [50]

/-- The Go string `"6"`. -/
def strSix : GoString := [54]

/-- The Go string `"10"`. -/
def strTen : GoString := [49, 48]

/-- The Go string `"22"`. -/
def strTwentyTwo : GoString := [50, 50]

/-- Unicode replacement character, as used by package `unicode/utf16`. -/
def replacementChar : Nat := 0xFFFD

/-- Is `r` a high (first) surrogate code unit. -/
def isSurr1 (r : Nat) : Bool := decide (0xD800 ≤ r ∧ r < 0xDC00)

/-- Is `r` a low (second) surrogate code unit. -/
def isSurr2 (r : Nat) : Bool := decide (0xDC00 ≤ r ∧ r < 0xE000)

/-- Embedding of Go `utf16.Decode`: surrogate pairs are combined, unpaired
surrogates become the replacement character, everything else is copied. -/
def utf16Decode : List Nat → List Nat
  | [] => []
  | [r] => if isSurr1 r || isSurr2 r then [replacementChar] else [r]
  | r1 :: r2 :: rest =>
    if isSurr1 r1 && isSurr2 r2 then
      ((r1 - 0xD800) * 0x400 + (r2 - 0xDC00) + 0x10000) :: utf16Decode rest
    else if isSurr1 r1 || isSurr2 r1 then
      replacementChar :: utf16Decode (r2 :: rest)
    else
      r1 :: utf16Decode (r2 :: rest)

/-- Embedding of Go `utf16.Encode` (restricted to one input rune at the
head): valid BMP runes are copied, surrogate code points and out-of-range
values become the replacement character, the rest become surrogate pairs. -/
def utf16Encode : List Nat → List Nat
  | [] => []
  | v :: rest =>
    if v < 0x10000 then
      (if isSurr1 v || isSurr2 v then replacementChar else v) :: utf16Encode rest
    else if v ≤ 0x10FFFF then
      let w := v - 0x10000
      (0xD800 + w / 0x400) :: (0xDC00 + w % 0x400) :: utf16Encode rest
    else
      replacementChar :: utf16Encode rest

/-- Embedding of `strings.Trim(s, "\x00")`: drop NUL runes from both ends. -/
def trimNul (s : GoString) : GoString :=
  ((s.dropWhile (fun r => r == 0)).reverse.dropWhile (fun r => r == 0)).reverse

/-- Embedding of `syscall.UTF16PtrFromString`: fails with EINVAL when the
string contains a NUL, otherwise yields the NUL-terminated UTF-16 encoding. -/
def utf16PtrFromString (s : GoString) : Except GoErr (List Nat) :=
  if s.contains 0 then Except.error einval
  else Except.ok (utf16Encode s ++ [0])

/-- The 256-element uint16 buffer of `Get` after the SPI call: the array is
zero-initialised, the OS overwrites a prefix of at most 256 units. -/
def wallpaperBuffer (env : Env) : List Nat :=
  let fill := (env.spiGetFill.map (fun u => u % 65536)).take 256
  fill ++ List.replicate (256 - fill.length) 0

/-- Embedding of `isAdmin`: runs `net session`, reports whether it
succeeded. -/
def isAdmin (env : Env) : Bool × List Event :=
  (env.isAdminResult, [Event.adminCheck env.isAdminResult])

/-- Embedding of `runAsAdmin`: locate the executable (`log.Fatalf` on
failure), spawn an elevated instance through powershell (`log.Fatalf` on
failure), then `os.Exit(0)`. This function never returns normally. -/
def runAsAdmin (env : Env) : Outcome Unit × List Event :=
  match env.executablePath with
  | Except.error _ => (Outcome.fatal failedExePathMsg, [])
  | Except.ok _ =>
    match env.runAsResult with
    | Except.error _ => (Outcome.fatal failedRunAsMsg, [Event.spawnElevated])
    | Except.ok _ => (Outcome.exited 0, [Event.spawnElevated])

/-- Embedding of `Get`: fill a fixed 256-unit buffer by the SPI call,
UTF-16-decode it, trim NUL padding. The error result is the literal `nil`
of the source; the SPI call's own error return is ignored. -/
def Get (env : Env) : (GoString × Option GoErr) × List Event :=
  ((trimNul (utf16Decode (wallpaperBuffer env)), none), [Event.spiGet 256])

/-- Embedding of `checkRegistryValues`: each expected value is read and
compared; any open failure, read failure or mismatch yields `false`.
Go iterates the two map literals in unspecified order; the boolean result
is the conjunction of all checks and hence order-independent, and no
theorem below depends on the order of the read events, which here follows
the source text. -/
def checkRegistryValues (env : Env) (filename : GoString) : Bool × List Event :=
  match env.openPersonalization with
  | Except.error _ => (false, [Event.regOpen RegKey.personalization])
  | Except.ok _ =>
    let ev1 := [Event.regOpen RegKey.personalization,
                Event.regRead RegKey.personalization RegValueName.lockScreenImage]
    match env.readLockScreenImage with
    | Except.error _ => (false, ev1)
    | Except.ok v =>
      if v = filename then
        match env.openCSP with
        | Except.error _ => (false, ev1 ++ [Event.regOpen RegKey.personalizationCSP])
        | Except.ok _ =>
          let ev2 := ev1 ++ [Event.regOpen RegKey.personalizationCSP,
                     Event.regRead RegKey.personalizationCSP RegValueName.lockScreenImageStatus]
          match env.readLockScreenImageStatus with
          | Except.error _ => (false, ev2)
          | Except.ok n =>
            if n = 1 then
              let ev3 := ev2 ++
                [Event.regRead RegKey.personalizationCSP RegValueName.lockScreenImagePath]
              match env.readLockScreenImagePath with
              | Except.error _ => (false, ev3)
              | Except.ok p =>
                if p = filename then
                  let ev4 := ev3 ++
                    [Event.regRead RegKey.personalizationCSP RegValueName.lockScreenImageUrl]
                  match env.readLockScreenImageUrl with
                  | Except.error _ => (false, ev4)
                  | Except.ok u =>
                    if u = filename then (true, ev4) else (false, ev4)
                else (false, ev3)
            else (false, ev2)
          else (false, ev1)

/-- Embedding of `setLockscreen`: if not admin, request elevation (which
exits the process; the `return nil` after it in the source is dead code);
otherwise create the two policy keys and write the four lock-screen values,
returning the first failing call's error unmodified. -/
def setLockscreen (env : Env) (filename : GoString) : Outcome Unit × List Event :=
  let ev0 := (isAdmin env).2
  if (isAdmin env).1 = false then
    match (runAsAdmin env).1 with
    | Outcome.ok _ => (Outcome.ok (), ev0 ++ (runAsAdmin env).2)
    | r => (r, ev0 ++ (runAsAdmin env).2)
  else
      match env.createPersonalization with
      | Except.error e => (Outcome.err e, ev0 ++ [Event.regCreate RegKey.personalization])
      | Except.ok _ =>
        let ev1 := ev0 ++ [Event.regCreate RegKey.personalization,
          Event.regSetString RegKey.personalization RegValueName.lockScreenImage filename]
        match env.setLockScreenImage with
        | Except.error e => (Outcome.err e, ev1)
        | Except.ok _ =>
          match env.createCSP with
          | Except.error e => (Outcome.err e, ev1 ++ [Event.regCreate RegKey.personalizationCSP])
          | Except.ok _ =>
            let ev2 := ev1 ++ [Event.regCreate RegKey.personalizationCSP,
              Event.regSetDWord RegKey.personalizationCSP RegValueName.lockScreenImageStatus 1]
            match env.setLockScreenImageStatus with
            | Except.error e => (Outcome.err e, ev2)
            | Except.ok _ =>
              let ev3 := ev2 ++ [Event.regSetString RegKey.personalizationCSP
                RegValueName.lockScreenImagePath filename]
              match env.setLockScreenImagePath with
              | Except.error e => (Outcome.err e, ev3)
              | Except.ok _ =>
                let ev4 := ev3 ++ [Event.regSetString RegKey.personalizationCSP
                  RegValueName.lockScreenImageUrl filename]
                match env.setLockScreenImageUrl with
                | Except.error e => (Outcome.err e, ev4)
                | Except.ok _ => (Outcome.ok (), ev4)

/-- Embedding of `SetFromFile`: convert the path to UTF-16 (returning the
conversion error before anything else), run `checkRegistryValues`, invoke
`setLockscreen` when the check fails (propagating its error or process
termination), then issue the SPI set-wallpaper call with
SPIF_UPDATEINIFILE|SPIF_SENDCHANGE and return nil. -/
def SetFromFile (env : Env) (filename : GoString) : Outcome Unit × List Event :=
  match utf16PtrFromString filename with
  | Except.error e => (Outcome.err e, [])
  | Except.ok _ =>
    if (checkRegistryValues env filename).1 = false then
      match (setLockscreen env filename).1 with
      | Outcome.ok _ =>
        (Outcome.ok (), (checkRegistryValues env filename).2 ++ (setLockscreen env filename).2
          ++ [Event.spiSet filename (spifUpdateINIFile ||| spifSendChange)])
      | r => (r, (checkRegistryValues env filename).2 ++ (setLockscreen env filename).2)
    else
      (Outcome.ok (), (checkRegistryValues env filename).2
        ++ [Event.spiSet filename (spifUpdateINIFile ||| spifSendChange)])

/-- The tail of `SetMode` after the style switch has selected `style`:
write `WallpaperStyle`, then re-read the current path via `Get` and
re-apply it via `SetFromFile`, returning that call's result. -/
def writeStyleAndApply (env : Env) (ev1 : List Event) (style : GoString) :
    Outcome Unit × List Event :=
  let ev2 := ev1 ++
    [Event.regSetString RegKey.controlPanelDesktop RegValueName.wallpaperStyle style]
  match env.setWallpaperStyle with
  | Except.error e => (Outcome.err e, ev2)
  | Except.ok _ =>
    match (Get env).1.2 with
    | some e => (Outcome.err e, ev2 ++ (Get env).2)
    | none =>
      ((SetFromFile env (Get env).1.1).1,
        ev2 ++ (Get env).2 ++ (SetFromFile env (Get env).1.1).2)

/-- Embedding of `SetMode`: create HKCU `Control Panel\Desktop`, write
`TileWallpaper` ("1" for Tile, else "0"), select the style code by the
switch of the source (default: panic), write `WallpaperStyle`, then
re-apply the current wallpaper. Every failing registry call's error is
returned unmodified. -/
def SetMode (env : Env) (mode : Mode) : Outcome Unit × List Event :=
  match env.createDesktopKey with
  | Except.error e => (Outcome.err e, [Event.regCreate RegKey.controlPanelDesktop])
  | Except.ok _ =>
    let tile := if mode = Tile then strOne else strZero
    let ev1 := [Event.regCreate RegKey.controlPanelDesktop,
      Event.regSetString RegKey.controlPanelDesktop RegValueName.tileWallpaper tile]
    match env.setTileWallpaper with
    | Except.error e => (Outcome.err e, ev1)
    | Except.ok _ =>
      if mode = Center ∨ mode = Tile then writeStyleAndApply env ev1 strZero
      else if mode = Fit then writeStyleAndApply env ev1 strSix
      else if mode = Span then writeStyleAndApply env ev1 strTwentyTwo
      else if mode = Stretch then writeStyleAndApply env ev1 strTwo
      else if mode = Crop then writeStyleAndApply env ev1 strTen
      else (Outcome.panicked invalidModeMsg, ev1)

/-- A concrete error value for counterexamples and witnesses. -/
def errA : GoErr := "access is denied"

/-- A second concrete error value. -/
def errB : GoErr := "key creation failed"

/-- A concrete filename for witnesses: the runes of `c:\a.jpg`. -/
def fA : GoString := [99, 58, 92, 97, 46, 106, 112, 103]

/-- A filename containing a NUL rune (UTF-16 conversion fails on it). -/
def fNul : GoString := [99, 0, 97]

/-- An environment where the process is elevated and every OS call
succeeds; the lock-screen registry reads report exactly `fA`, so
`checkRegistryValues fA` passes. -/
def envAllOk : Env :=
  { isAdminResult := true
    executablePath := Except.ok fA
    runAsResult := Except.ok ()
    spiGetFill := fA
    spiGetErr := none
    spiSetErr := none
    openPersonalization := Except.ok ()
    readLockScreenImage := Except.ok fA
    openCSP := Except.ok ()
    readLockScreenImageStatus := Except.ok 1
    readLockScreenImagePath := Except.ok fA
    readLockScreenImageUrl := Except.ok fA
    createPersonalization := Except.ok ()
    setLockScreenImage := Except.ok ()
    createCSP := Except.ok ()
    setLockScreenImageStatus := Except.ok ()
    setLockScreenImagePath := Except.ok ()
    setLockScreenImageUrl := Except.ok ()
    createDesktopKey := Except.ok ()
    setTileWallpaper := Except.ok ()
    setWallpaperStyle := Except.ok () }

/-- Is an event a pure registry open or read (no mutation, no elevation). -/
def isReadEvent : Event → Bool
  | Event.regOpen _ => true
  | Event.regRead _ _ => true
  | _ => false

/-- Is an event part of the elevation path or a lock-screen registry write. -/
def isElevationOrLockWrite : Event → Bool
  | Event.adminCheck _ => true
  | Event.spawnElevated => true
  | Event.regCreate RegKey.personalization => true
  | Event.regCreate RegKey.personalizationCSP => true
  | Event.regSetString RegKey.personalization _ _ => true
  | Event.regSetString RegKey.personalizationCSP _ _ => true
  | Event.regSetDWord _ _ _ => true
  | _ => false

/-- Is an event a mutation of OS state (registry create or write, or the
SPI set-wallpaper call). -/
def isMutationEvent : Event → Bool
  | Event.regCreate _ => true
  | Event.regSetString _ _ _ => true
  | Event.regSetDWord _ _ _ => true
  | Event.spiSet _ _ => true
  | _ => false

/-- Is an event the SPI set-wallpaper call. -/
def isSpiSet : Event → Bool
  | Event.spiSet _ _ => true
  | _ => false

theorem list_all_mono {l : List Event} {p q : Event → Bool}
    (h : ∀ ev, p ev = true → q ev = true) (hl : l.all p = true) : l.all q = true := by
  simp only [List.all_eq_true] at hl ⊢
  exact fun ev hev => h ev (hl ev hev)

theorem dropWhile_len_le (p : Nat → Bool) (l : List Nat) :
    (l.dropWhile p).length ≤ l.length :=
  (List.dropWhile_suffix p).sublist.length_le

theorem utf16Decode_length_le (l : List Nat) : (utf16Decode l).length ≤ l.length := by
  induction l using utf16Decode.induct with
  | case1 => simp [utf16Decode]
  | case2 r h =>
    unfold utf16Decode
    rw [if_pos h]
    simp
  | case3 r h =>
    unfold utf16Decode
    rw [if_neg h]
  | case4 r1 r2 rest h ih =>
    unfold utf16Decode
    rw [if_pos h]
    simp only [List.length_cons]
    omega
  | case5 r1 r2 rest h1 h2 ih =>
    unfold utf16Decode
    rw [if_neg h1, if_pos h2]
    simp only [List.length_cons] at ih ⊢
    omega
  | case6 r1 r2 rest h1 h2 ih =>
    unfold utf16Decode
    rw [if_neg h1, if_neg h2]
    simp only [List.length_cons] at ih ⊢
    omega

theorem trimNul_length_le (s : GoString) : (trimNul s).length ≤ s.length := by
  unfold trimNul
  calc ((s.dropWhile (fun r => r == 0)).reverse.dropWhile (fun r => r == 0)).reverse.length
      = ((s.dropWhile (fun r => r == 0)).reverse.dropWhile (fun r => r == 0)).length := by
        simp
    _ ≤ (s.dropWhile (fun r => r == 0)).reverse.length := dropWhile_len_le _ _
    _ = (s.dropWhile (fun r => r == 0)).length := by simp
    _ ≤ s.length := dropWhile_len_le _ _

theorem head?_dropWhile_not (p : Nat → Bool) :
    ∀ (l : List Nat) (a : Nat), (l.dropWhile p).head? = some a → p a = false := by
  intro l
  induction l with
  | nil => intro a h; simp [List.dropWhile] at h
  | cons x xs ih =>
    intro a h
    cases hx : p x with
    | true =>
      simp only [List.dropWhile, hx] at h
      exact ih a h
    | false =>
      simp [List.dropWhile, hx] at h
      exact h ▸ hx

theorem trimNul_getLast?_ne_zero (s : GoString) : (trimNul s).getLast? ≠ some 0 := by
  unfold trimNul
  intro h
  rw [List.getLast?_reverse] at h
  have := head?_dropWhile_not (fun r => r == 0) _ _ h
  simp at this

theorem wallpaperBuffer_length (env : Env) : (wallpaperBuffer env).length = 256 := by
  unfold wallpaperBuffer
  have h : ((env.spiGetFill.map (fun u => u % 65536)).take 256).length ≤ 256 := by
    simp
  simp only [List.length_append, List.length_replicate]
  omega

/-- C8: `Get` queries the wallpaper path through a fixed 256-unit UTF-16
buffer filled by the SPI call, and returns the decoded contents with NUL
padding trimmed; the result never exceeds 256 units and never ends in a
NUL. -/
theorem get_uses_fixed_buffer_and_trims (env : Env) :
    (Get env).2 = [Event.spiGet 256] ∧
    (wallpaperBuffer env).length = 256 ∧
    (Get env).1.1 = trimNul (utf16Decode (wallpaperBuffer env)) ∧
    (Get env).1.1.length ≤ 256 ∧
    (Get env).1.1.getLast? ≠ some 0 := by
  refine ⟨rfl, wallpaperBuffer_length env, rfl, ?_, trimNul_getLast?_ne_zero _⟩
  calc (Get env).1.1.length
      ≤ (utf16Decode (wallpaperBuffer env)).length := trimNul_length_le _
    _ ≤ (wallpaperBuffer env).length := utf16Decode_length_le _
    _ = 256 := wallpaperBuffer_length env

/-- C9: the error component of `Get` is always `nil`: whatever the SPI
call's outcome (its error return is a field of the environment that the
code ignores), `Get` returns the decoded buffer contents paired with no
error. -/
theorem get_error_component_always_nil (env : Env) (e : Option GoErr) :
    (Get env).1.2 = none ∧
    Get { env with spiGetErr := e } = Get env :=
  ⟨rfl, rfl⟩

/-- C2: for every mode of the closed set, `SetMode` writes the
`TileWallpaper` value ("1" for Tile, "0" otherwise) and the style code of
the fixed table — Center/Tile to "0", Stretch to "2", Crop to "10", Fit to
"6", Span to "22" — into the `WallpaperStyle` value of HKCU
`Control Panel\Desktop`. -/
theorem setMode_style_table (env : Env) (m : Mode)
    (hk : env.createDesktopKey = Except.ok ())
    (ht : env.setTileWallpaper = Except.ok ())
    (hs : env.setWallpaperStyle = Except.ok ())
    (hm : modeIsValid m = true) :
    (Event.regSetString RegKey.controlPanelDesktop RegValueName.tileWallpaper
        (if m = Tile then strOne else strZero) ∈ (SetMode env m).2) ∧
    ((m = Center ∨ m = Tile) →
      Event.regSetString RegKey.controlPanelDesktop RegValueName.wallpaperStyle strZero
        ∈ (SetMode env m).2) ∧
    (m = Stretch →
      Event.regSetString RegKey.controlPanelDesktop RegValueName.wallpaperStyle strTwo
        ∈ (SetMode env m).2) ∧
    (m = Crop →
      Event.regSetString RegKey.controlPanelDesktop RegValueName.wallpaperStyle strTen
        ∈ (SetMode env m).2) ∧
    (m = Fit →
      Event.regSetString RegKey.controlPanelDesktop RegValueName.wallpaperStyle strSix
        ∈ (SetMode env m).2) ∧
    (m = Span →
      Event.regSetString RegKey.controlPanelDesktop RegValueName.wallpaperStyle strTwentyTwo
        ∈ (SetMode env m).2) := by
  simp only [modeIsValid, decide_eq_true_eq] at hm
  rcases hm with h | h | h | h | h | h <;> rw [h] <;>
    simp [SetMode, writeStyleAndApply, Get, hk, ht, hs,
      Center, Crop, Fit, Span, Stretch, Tile]

/-- C2 witness: the spec scenario `SetMode(Crop)` — with all registry calls
succeeding, the trace contains `WallpaperStyle` set to "10" and
`TileWallpaper` set to "0". -/
theorem setMode_style_table_witness :
    modeIsValid Crop = true ∧
    (Event.regSetString RegKey.controlPanelDesktop RegValueName.tileWallpaper
        (if Crop = Tile then strOne else strZero) ∈ (SetMode envAllOk Crop).2) ∧
    (Event.regSetString RegKey.controlPanelDesktop RegValueName.wallpaperStyle strTen
        ∈ (SetMode envAllOk Crop).2) := by
  have h := setMode_style_table envAllOk Crop rfl rfl rfl (by decide)
  exact ⟨by decide, h.1, h.2.2.2.1 rfl⟩

/-- C3: a mode value outside the closed six-element enumeration is never
silently coerced: `SetMode` never returns `ok`, never writes any style code
to `WallpaperStyle`, and — whenever the registry key open and the tile
write succeed, so that control reaches the style switch — panics with
"invalid wallpaper mode" instead of returning a runtime error. -/
theorem setMode_invalid_never_ok_no_style (env : Env) (m : Mode)
    (hm : modeIsValid m = false) :
    (∀ s, Event.regSetString RegKey.controlPanelDesktop RegValueName.wallpaperStyle s
        ∉ (SetMode env m).2) ∧
    (∀ a, (SetMode env m).1 ≠ Outcome.ok a) ∧
    (env.createDesktopKey = Except.ok () → env.setTileWallpaper = Except.ok () →
      (SetMode env m).1 = Outcome.panicked invalidModeMsg) := by
  simp only [modeIsValid, decide_eq_false_iff_not, not_or] at hm
  obtain ⟨h1, h2, h3, h4, h5, h6⟩ := hm
  rcases hk : env.createDesktopKey with e | u
  · simp [SetMode, hk]
  · cases u
    rcases ht : env.setTileWallpaper with e | v
    · simp [SetMode, hk, ht]
    · cases v
      simp [SetMode, hk, ht, h1, h2, h3, h4, h5, h6]

/-- C3 witness: the invalid mode value 6 at an all-succeeding environment:
no style write, no ok return, and the panic fires. -/
theorem setMode_invalid_never_ok_no_style_witness :
    (∀ s, Event.regSetString RegKey.controlPanelDesktop RegValueName.wallpaperStyle s
        ∉ (SetMode envAllOk 6).2) ∧
    (∀ a, (SetMode envAllOk 6).1 ≠ Outcome.ok a) ∧
    (envAllOk.createDesktopKey = Except.ok () → envAllOk.setTileWallpaper = Except.ok () →
      (SetMode envAllOk 6).1 = Outcome.panicked invalidModeMsg) :=
  setMode_invalid_never_ok_no_style envAllOk 6 (by decide)

/-- C10: with an invalid mode, when the desktop registry key opens
successfully (and the tile write goes through), the `TileWallpaper` value
has already been set to "0" when the panic fires: the whole run is exactly
the key creation, the tile write, and the panic. -/
theorem setMode_invalid_tile_written_before_panic (env : Env) (m : Mode)
    (hm : modeIsValid m = false)
    (hk : env.createDesktopKey = Except.ok ())
    (ht : env.setTileWallpaper = Except.ok ()) :
    SetMode env m = (Outcome.panicked invalidModeMsg,
      [Event.regCreate RegKey.controlPanelDesktop,
       Event.regSetString RegKey.controlPanelDesktop RegValueName.tileWallpaper strZero]) := by
  simp only [modeIsValid, decide_eq_false_iff_not, not_or] at hm
  obtain ⟨h1, h2, h3, h4, h5, h6⟩ := hm
  simp [SetMode, hk, ht, h1, h2, h3, h4, h5, h6]

/-- C10 witness: mode value -1 at an all-succeeding environment. -/
theorem setMode_invalid_tile_written_before_panic_witness :
    modeIsValid (-1) = false ∧
    SetMode envAllOk (-1) = (Outcome.panicked invalidModeMsg,
      [Event.regCreate RegKey.controlPanelDesktop,
       Event.regSetString RegKey.controlPanelDesktop RegValueName.tileWallpaper strZero]) :=
  ⟨by decide, setMode_invalid_tile_written_before_panic envAllOk (-1) (by decide) rfl rfl⟩

theorem writeStyleAndApply_ok (env : Env) (ev1 : List Event) (style : GoString)
    (hs : env.setWallpaperStyle = Except.ok ()) :
    writeStyleAndApply env ev1 style =
      ((SetFromFile env (Get env).1.1).1,
        (ev1 ++ [Event.regSetString RegKey.controlPanelDesktop RegValueName.wallpaperStyle style])
          ++ (Get env).2 ++ (SetFromFile env (Get env).1.1).2) := by
  simp [writeStyleAndApply, hs, Get]

/-- C7: after both registry writes succeed for a valid mode, `SetMode`
re-reads the current wallpaper path via `Get` and re-applies it via
`SetFromFile`, returning that call's result; its trace is the write prefix
followed by the events of `Get` and of `SetFromFile` on the path `Get`
returned. -/
theorem setMode_reapplies_current_path (env : Env) (m : Mode)
    (hm : modeIsValid m = true)
    (hk : env.createDesktopKey = Except.ok ())
    (ht : env.setTileWallpaper = Except.ok ())
    (hs : env.setWallpaperStyle = Except.ok ()) :
    (SetMode env m).1 = (SetFromFile env (Get env).1.1).1 ∧
    ∃ evW, (SetMode env m).2 = evW ++ (Get env).2 ++ (SetFromFile env (Get env).1.1).2 := by
  simp only [modeIsValid, decide_eq_true_eq] at hm
  rcases hm with h | h | h | h | h | h
  · rw [h, show SetMode env Center = writeStyleAndApply env
        [Event.regCreate RegKey.controlPanelDesktop,
         Event.regSetString RegKey.controlPanelDesktop RegValueName.tileWallpaper strZero]
        strZero from by simp [SetMode, hk, ht, Center, Crop, Fit, Span, Stretch, Tile],
      writeStyleAndApply_ok env _ _ hs]
    exact ⟨rfl, _, rfl⟩
  · rw [h, show SetMode env Crop = writeStyleAndApply env
        [Event.regCreate RegKey.controlPanelDesktop,
         Event.regSetString RegKey.controlPanelDesktop RegValueName.tileWallpaper strZero]
        strTen from by simp [SetMode, hk, ht, Center, Crop, Fit, Span, Stretch, Tile],
      writeStyleAndApply_ok env _ _ hs]
    exact ⟨rfl, _, rfl⟩
  · rw [h, show SetMode env Fit = writeStyleAndApply env
        [Event.regCreate RegKey.controlPanelDesktop,
         Event.regSetString RegKey.controlPanelDesktop RegValueName.tileWallpaper strZero]
        strSix from by simp [SetMode, hk, ht, Center, Crop, Fit, Span, Stretch, Tile],
      writeStyleAndApply_ok env _ _ hs]
    exact ⟨rfl, _, rfl⟩
  · rw [h, show SetMode env Span = writeStyleAndApply env
        [Event.regCreate RegKey.controlPanelDesktop,
         Event.regSetString RegKey.controlPanelDesktop RegValueName.tileWallpaper strZero]
        strTwentyTwo from by simp [SetMode, hk, ht, Center, Crop, Fit, Span, Stretch, Tile],
      writeStyleAndApply_ok env _ _ hs]
    exact ⟨rfl, _, rfl⟩
  · rw [h, show SetMode env Stretch = writeStyleAndApply env
        [Event.regCreate RegKey.controlPanelDesktop,
         Event.regSetString RegKey.controlPanelDesktop RegValueName.tileWallpaper strZero]
        strTwo from by simp [SetMode, hk, ht, Center, Crop, Fit, Span, Stretch, Tile],
      writeStyleAndApply_ok env _ _ hs]
    exact ⟨rfl, _, rfl⟩
  · rw [h, show SetMode env Tile = writeStyleAndApply env
        [Event.regCreate RegKey.controlPanelDesktop,
         Event.regSetString RegKey.controlPanelDesktop RegValueName.tileWallpaper strOne]
        strZero from by simp [SetMode, hk, ht, Center, Crop, Fit, Span, Stretch, Tile],
      writeStyleAndApply_ok env _ _ hs]
    exact ⟨rfl, _, rfl⟩

/-- C7 witness: `SetMode(Stretch)` at an all-succeeding environment. -/
theorem setMode_reapplies_current_path_witness :
    (SetMode envAllOk Stretch).1 = (SetFromFile envAllOk (Get envAllOk).1.1).1 ∧
    ∃ evW, (SetMode envAllOk Stretch).2
      = evW ++ (Get envAllOk).2 ++ (SetFromFile envAllOk (Get envAllOk).1.1).2 :=
  setMode_reapplies_current_path envAllOk Stretch (by decide) rfl rfl rfl

theorem checkRegistryValues_events_reads (env : Env) (f : GoString) :
    ((checkRegistryValues env f).2.all isReadEvent) = true := by
  unfold checkRegistryValues
  repeat' split
  all_goals decide

theorem read_event_benign (ev : Event) (h : isReadEvent ev = true) :
    (!(isElevationOrLockWrite ev)) = true ∧ (!(isMutationEvent ev)) = true := by
  cases ev
  case regOpen k => cases k <;> exact ⟨rfl, rfl⟩
  case regRead k n => cases k <;> exact ⟨rfl, rfl⟩
  all_goals simp [isReadEvent] at h

/-- C6: when the lock-screen registry values already match (the check
returns true), `SetFromFile` touches nothing of the elevation path: its
whole trace contains no admin probe, no elevated relaunch, and no
lock-screen registry create or write. -/
theorem setFromFile_matching_skips_elevation (env : Env) (f : GoString)
    (h : (checkRegistryValues env f).1 = true) :
    ((SetFromFile env f).2.all (fun ev => !(isElevationOrLockWrite ev))) = true := by
  cases hnul : f.contains 0 with
  | true =>
    have h0 : 0 ∈ f := by simpa using hnul
    simp [SetFromFile, utf16PtrFromString, h0]
  | false =>
    have h0 : 0 ∉ f := by simpa using hnul
    have hform : SetFromFile env f = (Outcome.ok (), (checkRegistryValues env f).2
        ++ [Event.spiSet f (spifUpdateINIFile ||| spifSendChange)]) := by
      simp [SetFromFile, utf16PtrFromString, h0, h]
    rw [hform]
    simp only [List.all_append, Bool.and_eq_true]
    exact ⟨list_all_mono (fun ev hev => (read_event_benign ev hev).1)
      (checkRegistryValues_events_reads env f), rfl⟩

/-- C6 witness: an environment whose registry values all report `fA`. -/
theorem setFromFile_matching_skips_elevation_witness :
    (checkRegistryValues envAllOk fA).1 = true ∧
    ((SetFromFile envAllOk fA).2.all (fun ev => !(isElevationOrLockWrite ev))) = true :=
  ⟨by decide, setFromFile_matching_skips_elevation envAllOk fA (by decide)⟩

theorem setLockscreen_unprivileged (env : Env) (f : GoString) (p : GoString)
    (hadm : env.isAdminResult = false)
    (hexe : env.executablePath = Except.ok p)
    (hrun : env.runAsResult = Except.ok ()) :
    setLockscreen env f = (Outcome.exited 0,
      [Event.adminCheck false, Event.spawnElevated]) := by
  simp [setLockscreen, isAdmin, runAsAdmin, hadm, hexe, hrun]

/-- An unprivileged environment where the lock-screen check fails but the
elevated relaunch itself succeeds. -/
def envC1 : Env :=
  { envAllOk with isAdminResult := false, openPersonalization := Except.error errA }

/-- C1 counterexample: in an unprivileged environment requiring the
lock-screen mutation, the caller of `SetFromFile` does not receive a
success-shaped return: the process terminates (`os.Exit(0)` inside
`runAsAdmin` never returns), so the result is `exited 0`, not `ok`. The
`return nil` after the elevation request in the source is dead code. -/
theorem setFromFile_unprivileged_counterexample :
    (SetFromFile envC1 fA).1 = Outcome.exited 0 ∧
    (SetFromFile envC1 fA).1 ≠ Outcome.ok () := by
  decide

/-- C1 (amended): on an unelevated process needing the lock-screen
mutation, `SetFromFile` spawns an elevated instance and terminates the
current process with exit code 0 before performing any mutation (no
registry write, no SPI call); no error is ever produced, but control never
returns to the caller. -/
theorem setFromFile_unprivileged_relaunch_exits (env : Env) (f : GoString) (p : GoString)
    (hnul : f.contains 0 = false)
    (hchk : (checkRegistryValues env f).1 = false)
    (hadm : env.isAdminResult = false)
    (hexe : env.executablePath = Except.ok p)
    (hrun : env.runAsResult = Except.ok ()) :
    (SetFromFile env f).1 = Outcome.exited 0 ∧
    Event.spawnElevated ∈ (SetFromFile env f).2 ∧
    ((SetFromFile env f).2.all (fun ev => !(isMutationEvent ev))) = true ∧
    ∀ e, (SetFromFile env f).1 ≠ Outcome.err e := by
  have hsl := setLockscreen_unprivileged env f p hadm hexe hrun
  have h0 : 0 ∉ f := by simpa using hnul
  have hform : SetFromFile env f = (Outcome.exited 0,
      (checkRegistryValues env f).2 ++ [Event.adminCheck false, Event.spawnElevated]) := by
    simp [SetFromFile, utf16PtrFromString, h0, hchk, hsl]
  rw [hform]
  refine ⟨rfl, by simp, ?_, by intro e; simp⟩
  simp only [List.all_append, Bool.and_eq_true]
  exact ⟨list_all_mono (fun ev hev => (read_event_benign ev hev).2)
    (checkRegistryValues_events_reads env f), by decide⟩

/-- C1 witness: the amended claim at the concrete environment `envC1`. -/
theorem setFromFile_unprivileged_relaunch_exits_witness :
    (SetFromFile envC1 [97]).1 = Outcome.exited 0 ∧
    Event.spawnElevated ∈ (SetFromFile envC1 [97]).2 ∧
    ((SetFromFile envC1 [97]).2.all (fun ev => !(isMutationEvent ev))) = true ∧
    ∀ e, (SetFromFile envC1 [97]).1 ≠ Outcome.err e :=
  setFromFile_unprivileged_relaunch_exits envC1 [97] fA (by decide) (by decide)
    rfl rfl rfl

/-- An elevated environment where the check fails and the first lock-screen
registry key creation fails with `errB`. -/
def envC4 : Env :=
  { envAllOk with openPersonalization := Except.error errA,
                  createPersonalization := Except.error errB }

/-- C4 counterexample: when the lock-screen mutation errors, `SetFromFile`
returns that error without ever issuing the SPI set-wallpaper call — the
"regardless of ... error" part of the claim fails. -/
theorem setFromFile_spi_skipped_on_error_counterexample :
    (SetFromFile envC4 fA).1 = Outcome.err errB ∧
    ((SetFromFile envC4 fA).2.all (fun ev => !(isSpiSet ev))) = true := by
  decide

/-- C4 (amended): whenever the path converts to UTF-16 and the lock-screen
step does not fail — the registry values match, or the mutation succeeds —
`SetFromFile` issues the SPI set-wallpaper call with
SPIF_UPDATEINIFILE|SPIF_SENDCHANGE as its final OS interaction and returns
no error; when the mutation errors, the call is skipped. -/
theorem setFromFile_spi_on_success (env : Env) (f : GoString)
    (hnul : f.contains 0 = false)
    (h : (checkRegistryValues env f).1 = true ∨
      (setLockscreen env f).1 = Outcome.ok ()) :
    (SetFromFile env f).1 = Outcome.ok () ∧
    (SetFromFile env f).2.getLast? =
      some (Event.spiSet f (spifUpdateINIFile ||| spifSendChange)) := by
  have h0 : 0 ∉ f := by simpa using hnul
  cases hc : (checkRegistryValues env f).1 with
  | true =>
    have hform : SetFromFile env f = (Outcome.ok (), (checkRegistryValues env f).2
        ++ [Event.spiSet f (spifUpdateINIFile ||| spifSendChange)]) := by
      simp [SetFromFile, utf16PtrFromString, h0, hc]
    rw [hform]
    exact ⟨rfl, by simp⟩
  | false =>
    rcases h with h | h
    · rw [hc] at h
      cases h
    · have hform : SetFromFile env f = (Outcome.ok (),
          ((checkRegistryValues env f).2 ++ (setLockscreen env f).2)
            ++ [Event.spiSet f (spifUpdateINIFile ||| spifSendChange)]) := by
        simp [SetFromFile, utf16PtrFromString, h0, hc, h]
      rw [hform]
      exact ⟨rfl, by simp⟩

/-- C4 witness: the amended claim at the all-matching environment. -/
theorem setFromFile_spi_on_success_witness :
    fA.contains 0 = false ∧
    (SetFromFile envAllOk fA).1 = Outcome.ok () ∧
    (SetFromFile envAllOk fA).2.getLast? =
      some (Event.spiSet fA (spifUpdateINIFile ||| spifSendChange)) := by
  have h := setFromFile_spi_on_success envAllOk fA (by decide) (Or.inl (by decide))
  exact ⟨by decide, h.1, h.2⟩

/-- C5: OS-call failures bubble to the immediate caller unmodified, with no
retry: a failed UTF-16 conversion returns before any OS interaction (empty
trace); a failed lock-screen mutation is returned by `SetFromFile` as-is;
each registry create/write of `setLockscreen` and `SetMode` that fails
makes the function return exactly that error, with every preceding OS call
attempted exactly once (the traces are listed explicitly). -/
theorem errors_bubble_unmodified (env : Env) (f : GoString) (m : Mode) (e : GoErr) :
    (f.contains 0 = true → SetFromFile env f = (Outcome.err einval, [])) ∧
    (f.contains 0 = false → (checkRegistryValues env f).1 = false →
      (setLockscreen env f).1 = Outcome.err e →
      SetFromFile env f = (Outcome.err e,
        (checkRegistryValues env f).2 ++ (setLockscreen env f).2)) ∧
    (env.isAdminResult = true → env.createPersonalization = Except.error e →
      setLockscreen env f = (Outcome.err e,
        [Event.adminCheck true, Event.regCreate RegKey.personalization])) ∧
    (env.isAdminResult = true → env.createPersonalization = Except.ok () →
      env.setLockScreenImage = Except.error e →
      setLockscreen env f = (Outcome.err e,
        [Event.adminCheck true, Event.regCreate RegKey.personalization,
         Event.regSetString RegKey.personalization RegValueName.lockScreenImage f])) ∧
    (env.isAdminResult = true → env.createPersonalization = Except.ok () →
      env.setLockScreenImage = Except.ok () → env.createCSP = Except.error e →
      setLockscreen env f = (Outcome.err e,
        [Event.adminCheck true, Event.regCreate RegKey.personalization,
         Event.regSetString RegKey.personalization RegValueName.lockScreenImage f,
         Event.regCreate RegKey.personalizationCSP])) ∧
    (env.isAdminResult = true → env.createPersonalization = Except.ok () →
      env.setLockScreenImage = Except.ok () → env.createCSP = Except.ok () →
      env.setLockScreenImageStatus = Except.error e →
      setLockscreen env f = (Outcome.err e,
        [Event.adminCheck true, Event.regCreate RegKey.personalization,
         Event.regSetString RegKey.personalization RegValueName.lockScreenImage f,
         Event.regCreate RegKey.personalizationCSP,
         Event.regSetDWord RegKey.personalizationCSP RegValueName.lockScreenImageStatus 1])) ∧
    (env.isAdminResult = true → env.createPersonalization = Except.ok () →
      env.setLockScreenImage = Except.ok () → env.createCSP = Except.ok () →
      env.setLockScreenImageStatus = Except.ok () →
      env.setLockScreenImagePath = Except.error e →
      setLockscreen env f = (Outcome.err e,
        [Event.adminCheck true, Event.regCreate RegKey.personalization,
         Event.regSetString RegKey.personalization RegValueName.lockScreenImage f,
         Event.regCreate RegKey.personalizationCSP,
         Event.regSetDWord RegKey.personalizationCSP RegValueName.lockScreenImageStatus 1,
         Event.regSetString RegKey.personalizationCSP RegValueName.lockScreenImagePath f])) ∧
    (env.isAdminResult = true → env.createPersonalization = Except.ok () →
      env.setLockScreenImage = Except.ok () → env.createCSP = Except.ok () →
      env.setLockScreenImageStatus = Except.ok () →
      env.setLockScreenImagePath = Except.ok () →
      env.setLockScreenImageUrl = Except.error e →
      setLockscreen env f = (Outcome.err e,
        [Event.adminCheck true, Event.regCreate RegKey.personalization,
         Event.regSetString RegKey.personalization RegValueName.lockScreenImage f,
         Event.regCreate RegKey.personalizationCSP,
         Event.regSetDWord RegKey.personalizationCSP RegValueName.lockScreenImageStatus 1,
         Event.regSetString RegKey.personalizationCSP RegValueName.lockScreenImagePath f,
         Event.regSetString RegKey.personalizationCSP RegValueName.lockScreenImageUrl f])) ∧
    (env.createDesktopKey = Except.error e →
      SetMode env m = (Outcome.err e, [Event.regCreate RegKey.controlPanelDesktop])) ∧
    (env.createDesktopKey = Except.ok () → env.setTileWallpaper = Except.error e →
      SetMode env m = (Outcome.err e,
        [Event.regCreate RegKey.controlPanelDesktop,
         Event.regSetString RegKey.controlPanelDesktop RegValueName.tileWallpaper
           (if m = Tile then strOne else strZero)])) ∧
    (modeIsValid m = true → env.createDesktopKey = Except.ok () →
      env.setTileWallpaper = Except.ok () → env.setWallpaperStyle = Except.error e →
      (SetMode env m).1 = Outcome.err e) := by
  refine ⟨?_, ?_, ?_, ?_, ?_, ?_, ?_, ?_, ?_, ?_, ?_⟩
  · intro h
    have h0 : 0 ∈ f := by simpa using h
    simp [SetFromFile, utf16PtrFromString, h0]
  · intro h1 h2 h3
    have h0 : 0 ∉ f := by simpa using h1
    simp [SetFromFile, utf16PtrFromString, h0, h2, h3]
  · intro h1 h2
    simp [setLockscreen, isAdmin, h1, h2]
  · intro h1 h2 h3
    simp [setLockscreen, isAdmin, h1, h2, h3]
  · intro h1 h2 h3 h4
    simp [setLockscreen, isAdmin, h1, h2, h3, h4]
  · intro h1 h2 h3 h4 h5
    simp [setLockscreen, isAdmin, h1, h2, h3, h4, h5]
  · intro h1 h2 h3 h4 h5 h6
    simp [setLockscreen, isAdmin, h1, h2, h3, h4, h5, h6]
  · intro h1 h2 h3 h4 h5 h6 h7
    simp [setLockscreen, isAdmin, h1, h2, h3, h4, h5, h6, h7]
  · intro h1
    simp [SetMode, h1]
  · intro h1 h2
    simp [SetMode, h1, h2]
  · intro hm h1 h2 h3
    simp only [modeIsValid, decide_eq_true_eq] at hm
    rcases hm with h | h | h | h | h | h <;> rw [h] <;>
      simp [SetMode, writeStyleAndApply, h1, h2, h3,
        Center, Crop, Fit, Span, Stretch, Tile]

/-- Environment: elevated, `LockScreenImage` write fails with `errA`. -/
def envSLImage : Env := { envAllOk with setLockScreenImage := Except.error errA }

/-- Environment: elevated, CSP key creation fails with `errA`. -/
def envSLCSP : Env := { envAllOk with createCSP := Except.error errA }

/-- Environment: elevated, `LockScreenImageStatus` write fails with `errA`. -/
def envSLStatus : Env := { envAllOk with setLockScreenImageStatus := Except.error errA }

/-- Environment: elevated, `LockScreenImagePath` write fails with `errA`. -/
def envSLPath : Env := { envAllOk with setLockScreenImagePath := Except.error errA }

/-- Environment: elevated, `LockScreenImageUrl` write fails with `errA`. -/
def envSLUrl : Env := { envAllOk with setLockScreenImageUrl := Except.error errA }

/-- Environment: the desktop registry key creation fails with `errA`. -/
def envDeskErr : Env := { envAllOk with createDesktopKey := Except.error errA }

/-- Environment: the `TileWallpaper` write fails with `errA`. -/
def envTileErr : Env := { envAllOk with setTileWallpaper := Except.error errA }

/-- Environment: the `WallpaperStyle` write fails with `errA`. -/
def envStyleErr : Env := { envAllOk with setWallpaperStyle := Except.error errA }

/-- C5 witness: each failure site exercised at a concrete environment. -/
theorem errors_bubble_unmodified_witness :
    SetFromFile envAllOk fNul = (Outcome.err einval, []) ∧
    SetFromFile envC4 fA = (Outcome.err errB,
      (checkRegistryValues envC4 fA).2 ++ (setLockscreen envC4 fA).2) ∧
    setLockscreen envC4 fA = (Outcome.err errB,
      [Event.adminCheck true, Event.regCreate RegKey.personalization]) ∧
    setLockscreen envSLImage fA = (Outcome.err errA,
      [Event.adminCheck true, Event.regCreate RegKey.personalization,
       Event.regSetString RegKey.personalization RegValueName.lockScreenImage fA]) ∧
    setLockscreen envSLCSP fA = (Outcome.err errA,
      [Event.adminCheck true, Event.regCreate RegKey.personalization,
       Event.regSetString RegKey.personalization RegValueName.lockScreenImage fA,
       Event.regCreate RegKey.personalizationCSP]) ∧
    setLockscreen envSLStatus fA = (Outcome.err errA,
      [Event.adminCheck true, Event.regCreate RegKey.personalization,
       Event.regSetString RegKey.personalization RegValueName.lockScreenImage fA,
       Event.regCreate RegKey.personalizationCSP,
       Event.regSetDWord RegKey.personalizationCSP RegValueName.lockScreenImageStatus 1]) ∧
    setLockscreen envSLPath fA = (Outcome.err errA,
      [Event.adminCheck true, Event.regCreate RegKey.personalization,
       Event.regSetString RegKey.personalization RegValueName.lockScreenImage fA,
       Event.regCreate RegKey.personalizationCSP,
       Event.regSetDWord RegKey.personalizationCSP RegValueName.lockScreenImageStatus 1,
       Event.regSetString RegKey.personalizationCSP RegValueName.lockScreenImagePath fA]) ∧
    setLockscreen envSLUrl fA = (Outcome.err errA,
      [Event.adminCheck true, Event.regCreate RegKey.personalization,
       Event.regSetString RegKey.personalization RegValueName.lockScreenImage fA,
       Event.regCreate RegKey.personalizationCSP,
       Event.regSetDWord RegKey.personalizationCSP RegValueName.lockScreenImageStatus 1,
       Event.regSetString RegKey.personalizationCSP RegValueName.lockScreenImagePath fA,
       Event.regSetString RegKey.personalizationCSP RegValueName.lockScreenImageUrl fA]) ∧
    SetMode envDeskErr Crop = (Outcome.err errA,
      [Event.regCreate RegKey.controlPanelDesktop]) ∧
    SetMode envTileErr Crop = (Outcome.err errA,
      [Event.regCreate RegKey.controlPanelDesktop,
       Event.regSetString RegKey.controlPanelDesktop RegValueName.tileWallpaper
         (if Crop = Tile then strOne else strZero)]) ∧
    (SetMode envStyleErr Crop).1 = Outcome.err errA := by
  refine ⟨(errors_bubble_unmodified envAllOk fNul Crop errA).1 (by decide),
    (errors_bubble_unmodified envC4 fA Crop errB).2.1 (by decide) (by decide) (by decide),
    (errors_bubble_unmodified envC4 fA Crop errB).2.2.1 rfl rfl,
    (errors_bubble_unmodified envSLImage fA Crop errA).2.2.2.1 rfl rfl rfl,
    (errors_bubble_unmodified envSLCSP fA Crop errA).2.2.2.2.1 rfl rfl rfl rfl,
    (errors_bubble_unmodified envSLStatus fA Crop errA).2.2.2.2.2.1 rfl rfl rfl rfl rfl,
    (errors_bubble_unmodified envSLPath fA Crop errA).2.2.2.2.2.2.1 rfl rfl rfl rfl rfl rfl,
    (errors_bubble_unmodified envSLUrl fA Crop errA).2.2.2.2.2.2.2.1
      rfl rfl rfl rfl rfl rfl rfl,
    (errors_bubble_unmodified envDeskErr fA Crop errA).2.2.2.2.2.2.2.2.1 rfl,
    (errors_bubble_unmodified envTileErr fA Crop errA).2.2.2.2.2.2.2.2.2.1 rfl rfl,
    (errors_bubble_unmodified envStyleErr fA Crop errA).2.2.2.2.2.2.2.2.2.2
      (by decide) rfl rfl rfl⟩

end Wallpaper
